import Mathlib

/-!
Shallow embedding of the StarLord2020/telegrambot sources.

The repository ships three JavaScript program variants of the same bot:
* variant A: the first program in `src/src/index.js` (simple inline handler);
* variant B: the second program in `src/src/index.js` (ingestion variant);
* variant P: `src/unnamed/part_000` (voice/document-aware inline handler).

Strings are modelled by Lean `String` (a packed `List Char`); JavaScript
`undefined` for an absent field is modelled by `Option`.  Lower-casing is
modelled by `Char.toLower` mapped over the characters, matching the
ASCII-range behaviour of `String.prototype.toLowerCase` that the spec's
properties rely on.
-/

namespace TgBot

/-! ### JavaScript primitive semantics -/

/-- Truthiness of an optional JS string: `undefined` and `""` are falsy. -/
def truthy : Option String → Bool
  | none => false
  | some s => !(s == "")

/-- JS `a || d` where `a` is an optional string and `d` a string default. -/
def jsOrStr (o : Option String) (d : String) : String :=
  match o with
  | none => d
  | some s => if s == "" then d else s

/-- JS `a || b` on two optional strings, as used in `a.voice_file_id || a.file_id`. -/
def jsOrOpt (x y : Option String) : Option String :=
  if truthy x then x else y

/-- JS `a || undefined`, as used in `caption: a.caption || undefined`. -/
def jsOrUndef (o : Option String) : Option String :=
  if truthy o then o else none

/-- Rendering of an optional string in a JS template literal:
`undefined` renders as the string `"undefined"`. -/
def tmpl : Option String → String
  | none => "undefined"
  | some s => s

/-- Model of `String.prototype.toLowerCase` (ASCII range). -/
def jsToLower (s : String) : String :=
  ⟨s.data.map Char.toLower⟩

/-- Helper for `jsIncludes`: is `needle` a contiguous sublist of the haystack? -/
def containsSubList (needle : List Char) : List Char → Bool
  | [] => needle.isEmpty
  | c :: t => needle.isPrefixOf (c :: t) || containsSubList needle t

/-- Model of JS `hay.includes(needle)`: substring containment. -/
def jsIncludes (hay needle : String) : Bool :=
  containsSubList needle.data hay.data

/-! ### Data model: catalog entries (spec §3, fields read by the source) -/

/-- A catalog entry from `data/audios.json`, with every field the three
program variants ever read.  Absent JSON fields are `none`. -/
structure AudioEntry where
  id : Option String := none
  title : Option String := none
  performer : Option String := none
  caption : Option String := none
  file_id : Option String := none
  url : Option String := none
  voice_file_id : Option String := none
  document_file_id : Option String := none
  file_unique_id : Option String := none
  tg_type : Option String := none
  is_voice : Option Bool := none
  description : Option String := none
  deriving DecidableEq, Repr

/-! ### Query matcher (`searchAudios`, identical lines 35–47 of
`src/src/index.js` first program and `src/unnamed/part_000`) -/

/-- `normalize(s)` from the source: `(s || '').toString().toLowerCase()`. -/
def normalize (o : Option String) : String :=
  jsToLower (o.getD "")

/-- The match haystack built by `searchAudios`:
``const hay = `${a.title} ${a.performer || ''}`;``
(note: an absent `title` renders as `"undefined"` in the template literal). -/
def hay (a : AudioEntry) : String :=
  tmpl a.title ++ " " ++ jsOrStr a.performer ""

/-- The filter predicate of `searchAudios`: `normalize(hay).includes(q)`. -/
def matchesQuery (q : String) (a : AudioEntry) : Bool :=
  jsIncludes (jsToLower (hay a)) q

/-- `searchAudios(query, limit)` over a catalog `lib`
(lines 39–47 of `src/src/index.js`, first program; identical in
`src/unnamed/part_000`). -/
def searchAudios (lib : List AudioEntry) (query : Option String) (limit : Nat) :
    List AudioEntry :=
  let q := normalize query
  if q == "" then lib.take limit
  else (lib.filter (matchesQuery q)).take limit

/-! ### Helper lemmas about the string model -/

theorem char_toNat_ofNat_valid {n : Nat} (h : n.isValidChar) :
    (Char.ofNat n).toNat = n := by
  unfold Char.ofNat
  rw [dif_pos h]
  rfl

theorem charToLower_idem (c : Char) : c.toLower.toLower = c.toLower := by
  unfold Char.toLower
  by_cases h : c.toNat ≥ 65 ∧ c.toNat ≤ 90
  · rw [if_pos h]
    have hv : (c.toNat + 32).isValidChar := Or.inl (by omega)
    have ht : (Char.ofNat (c.toNat + 32)).toNat = c.toNat + 32 :=
      char_toNat_ofNat_valid hv
    rw [if_neg]
    rw [ht]
    omega
  · rw [if_neg h, if_neg h]

theorem jsToLower_idem (s : String) : jsToLower (jsToLower s) = jsToLower s := by
  simp [jsToLower, List.map_map, Function.comp_def, charToLower_idem]

theorem jsToLower_eq_empty {s : String} : jsToLower s = "" ↔ s = "" := by
  cases s with
  | mk d =>
    constructor
    · intro h
      have hd : d.map Char.toLower = [] := congrArg String.data h
      have : d = [] := by simpa using hd
      simp [this]
    · intro h
      rw [h]
      rfl

theorem containsSubList_singleton_of_mem {c : Char} {l : List Char}
    (h : c ∈ l) : containsSubList [c] l = true := by
  induction l with
  | nil => cases h
  | cons b t ih =>
    rw [containsSubList]
    rcases List.mem_cons.mp h with h1 | h2
    · subst h1
      simp [List.isPrefixOf]
    · simp [ih h2]

/-! ### Claim C1: non-empty query search -/

/-- C1: for every non-empty query string `q` and every limit `n`,
`searchAudios` returns exactly the catalog entries whose lower-cased
haystack (the concatenation of `title` and `performer` built by the code)
contains the lower-cased `q` as a substring, preserving catalog order and
truncated to the first `n` matches; in particular every returned entry
satisfies the substring condition. -/
theorem C1_search_returns_substring_matches
    (lib : List AudioEntry) (q : String) (n : Nat) (h : q ≠ "") :
    searchAudios lib (some q) n
      = (lib.filter (fun a => jsIncludes (jsToLower (hay a)) (jsToLower q))).take n
    ∧ ∀ a ∈ searchAudios lib (some q) n,
        jsIncludes (jsToLower (hay a)) (jsToLower q) = true := by
  have hq : (jsToLower q == "") = false := by
    simp only [beq_eq_false_iff_ne, ne_eq, jsToLower_eq_empty]
    exact h
  have hmain : searchAudios lib (some q) n
      = (lib.filter (fun a => jsIncludes (jsToLower (hay a)) (jsToLower q))).take n := by
    simp only [searchAudios, normalize, Option.getD_some, hq, Bool.false_eq_true,
      if_false]
    rfl
  refine ⟨hmain, ?_⟩
  intro a ha
  rw [hmain] at ha
  have ha' : a ∈ lib.filter (fun a => jsIncludes (jsToLower (hay a)) (jsToLower q)) :=
    List.take_subset _ _ ha
  exact (List.mem_filter.mp ha').2

/-- C1 witness: the spec's scenario catalog with query `"a"` and limit 25. -/
theorem C1_search_returns_substring_matches_witness :
    ("a" : String) ≠ "" ∧
    (searchAudios
        [{ title := some "Song A", performer := some "X", url := some "http://a" },
         { title := some "Song B", file_id := some "F1" }] (some "a") 25
      = (([{ title := some "Song A", performer := some "X", url := some "http://a" },
           { title := some "Song B", file_id := some "F1" }] : List AudioEntry).filter
          (fun a => jsIncludes (jsToLower (hay a)) (jsToLower "a"))).take 25
    ∧ ∀ a ∈ searchAudios
        [{ title := some "Song A", performer := some "X", url := some "http://a" },
         { title := some "Song B", file_id := some "F1" }] (some "a") 25,
        jsIncludes (jsToLower (hay a)) (jsToLower "a") = true) :=
  ⟨by decide, C1_search_returns_substring_matches
    [{ title := some "Song A", performer := some "X", url := some "http://a" },
     { title := some "Song B", file_id := some "F1" }] "a" 25 (by decide)⟩

/-! ### Claim C4: empty (or absent) query -/

/-- C4: with an empty query (or an absent one, which normalizes to the empty
string) `searchAudios` returns exactly the first `limit` entries in catalog
order, with no filtering; for limit 1 on a non-empty catalog this is exactly
the first entry. -/
theorem C4_empty_query_takes_head
    (lib : List AudioEntry) (n : Nat) :
    searchAudios lib (some "") n = lib.take n
    ∧ searchAudios lib none n = lib.take n
    ∧ ∀ (a : AudioEntry) (rest : List AudioEntry),
        searchAudios (a :: rest) (some "") 1 = [a] := by
  refine ⟨rfl, rfl, ?_⟩
  intro a rest
  show (a :: rest).take 1 = [a]
  simp

/-! ### Claim C9: case-invariance of the search -/

/-- C9: searching with `q` yields exactly the same result sequence as
searching with the lower-cased form of `q`, for every catalog and limit. -/
theorem C9_search_case_insensitive
    (lib : List AudioEntry) (q : String) (n : Nat) :
    searchAudios lib (some q) n = searchAudios lib (some (jsToLower q)) n := by
  unfold searchAudios
  rw [show normalize (some (jsToLower q)) = normalize (some q) from by
    simp [normalize, jsToLower_idem]]

/-! ### Claim C10: a single-space query matches every entry -/

/-- C10: since the haystack joins `title` and `performer` with a literal
space, the one-space query matches every catalog entry, so searching with
`" "` returns the same entries as searching with the empty query: the first
`n` catalog entries. -/
theorem C10_single_space_query_matches_all
    (lib : List AudioEntry) (n : Nat) :
    (∀ a : AudioEntry, matchesQuery " " a = true)
    ∧ searchAudios lib (some " ") n = searchAudios lib (some "") n
    ∧ searchAudios lib (some " ") n = lib.take n := by
  have hall : ∀ a : AudioEntry, matchesQuery " " a = true := by
    intro a
    have hmem : ' ' ∈ (hay a).data := by
      have hsp : ' ' ∈ (" " : String).data := by decide
      simp only [hay, String.data_append, List.mem_append]
      exact Or.inl (Or.inr hsp)
    have hmem2 : ' ' ∈ (hay a).data.map Char.toLower := by
      have : Char.toLower ' ' = ' ' := by decide
      simpa [this] using List.mem_map_of_mem Char.toLower hmem
    show jsIncludes (jsToLower (hay a)) " " = true
    exact containsSubList_singleton_of_mem hmem2
  have hnorm : normalize (some " ") = " " := by decide
  have htake : searchAudios lib (some " ") n = lib.take n := by
    have hfilter : lib.filter (matchesQuery " ") = lib :=
      List.filter_eq_self.mpr (fun a _ => hall a)
    simp only [searchAudios, hnorm, hfilter]
    rfl
  exact ⟨hall, by rw [htake]; rfl, htake⟩

/-! ### Result formatter (inline_query handlers)

`src/unnamed/part_000` lines 72–121 build one of four inline-result shapes
per matched entry (voice, document, cached audio, URL audio) or drop the
entry; the first program of `src/src/index.js` (lines 62–69) instead maps
every matched entry to a URL-audio shape unconditionally. -/

/-- An inline-result descriptor, covering every shape any variant builds. -/
inductive InlineResult where
  | voice (id voice_file_id title : String)
  | document (id document_file_id title : String) (caption description : Option String)
  | audioCached (id audio_file_id : String) (caption : Option String)
  | audioUrl (id : String) (audio_url : Option String)
      (title performer caption : Option String)
  deriving DecidableEq, Repr

/-- The `id` field carried by an inline result. -/
def InlineResult.resId : InlineResult → String
  | .voice i _ _ => i
  | .document i _ _ _ _ => i
  | .audioCached i _ _ => i
  | .audioUrl i _ _ _ _ => i

/-- Result identifier in `part_000` (line 74) and the second `index.js`
program (line 212): template of `a.id || a.file_unique_id || idx`. -/
def resultId (a : AudioEntry) (idx : Nat) : String :=
  jsOrStr a.id (jsOrStr a.file_unique_id (toString idx))

/-- The per-entry formatter of the `part_000` inline_query handler
(lines 72–121), translated branch by branch from the source. -/
def formatInlineResult (a : AudioEntry) (idx : Nat) : Option InlineResult :=
  let id := resultId a idx
  if a.tg_type == some "voice" || a.is_voice == some true || truthy a.voice_file_id then
    let voiceId := jsOrOpt a.voice_file_id a.file_id
    if truthy voiceId then
      some (.voice id (voiceId.getD "") (jsOrStr a.title "Voice"))
    else none
  else if a.tg_type == some "document" || truthy a.document_file_id then
    let docId := jsOrOpt a.document_file_id a.file_id
    if truthy docId then
      some (.document id (docId.getD "") (jsOrStr a.title "Document")
        (jsOrUndef a.caption) (jsOrUndef a.description))
    else none
  else if truthy a.file_id then
    some (.audioCached id (a.file_id.getD "") (jsOrUndef a.caption))
  else if truthy a.url then
    some (.audioUrl id a.url (some (jsOrStr a.title "Audio"))
      (jsOrUndef a.performer) (jsOrUndef a.caption))
  else none

/-- Entry tagged as voice, in the words of spec §4.2 step 1. -/
def voiceTagged (a : AudioEntry) : Bool :=
  a.tg_type == some "voice" || a.is_voice == some true || truthy a.voice_file_id

/-- Entry tagged as document, in the words of spec §4.2 step 2. -/
def documentTagged (a : AudioEntry) : Bool :=
  a.tg_type == some "document" || truthy a.document_file_id

/-- The spec-side formatter, written from the resolution order stated in
spec §4.2 (voice, then document, then cached audio, then URL audio, else
excluded), to be compared with `formatInlineResult` from the source. -/
def specFormatEntry (a : AudioEntry) (idx : Nat) : Option InlineResult :=
  if voiceTagged a then
    if truthy (jsOrOpt a.voice_file_id a.file_id) then
      some (.voice (resultId a idx) ((jsOrOpt a.voice_file_id a.file_id).getD "")
        (jsOrStr a.title "Voice"))
    else none
  else if documentTagged a then
    if truthy (jsOrOpt a.document_file_id a.file_id) then
      some (.document (resultId a idx) ((jsOrOpt a.document_file_id a.file_id).getD "")
        (jsOrStr a.title "Document") (jsOrUndef a.caption) (jsOrUndef a.description))
    else none
  else if truthy a.file_id then
    some (.audioCached (resultId a idx) (a.file_id.getD "") (jsOrUndef a.caption))
  else if truthy a.url then
    some (.audioUrl (resultId a idx) a.url (some (jsOrStr a.title "Audio"))
      (jsOrUndef a.performer) (jsOrUndef a.caption))
  else none

/-- The per-entry formatter of the first `src/src/index.js` inline_query
handler (lines 62–69): every searched entry becomes a URL-audio shape. -/
def formatInlineResultA (a : AudioEntry) (idx : Nat) : InlineResult :=
  .audioUrl (jsOrStr a.id (toString idx)) a.url a.title
    (jsOrUndef a.performer) (jsOrUndef a.caption)

/-- The result list of the `part_000` inline_query handler: search with the
query (absent query becomes the empty string), format each entry with its
positional index, drop the `null` entries (`.filter(Boolean)`). -/
def inlineResults (lib : List AudioEntry) (query : Option String) : List InlineResult :=
  ((searchAudios lib (some (jsOrStr query "")) 25).mapIdx
    (fun idx a => formatInlineResult a idx)).reduceOption

/-- The result list of the first `src/src/index.js` inline_query handler:
every searched entry is formatted, nothing is dropped. -/
def inlineResultsA (lib : List AudioEntry) (query : Option String) : List InlineResult :=
  (searchAudios lib (some (jsOrStr query "")) 25).mapIdx
    (fun idx a => formatInlineResultA a idx)

/-- JS string-or-default expressed through truthiness. -/
theorem jsOrStr_eq (o : Option String) (d : String) :
    jsOrStr o d = if truthy o then o.getD "" else d := by
  cases o with
  | none => simp [jsOrStr, truthy]
  | some s =>
    by_cases hs : s = "" <;> simp [jsOrStr, truthy, hs]

/-! ### Claim C2: entries without any media reference -/

/-- C2 counterexample: in the first `src/src/index.js` inline_query handler
an entry with none of voice reference, document reference, `file_id`, `url`
is NOT excluded — it still yields a (URL-audio) result in the output list. -/
theorem C2_counterexample_indexJs_keeps_refless_entry :
    ({} : AudioEntry).voice_file_id = none
    ∧ ({} : AudioEntry).document_file_id = none
    ∧ ({} : AudioEntry).file_id = none
    ∧ ({} : AudioEntry).url = none
    ∧ inlineResultsA [{}] (some "")
        = [InlineResult.audioUrl "0" none none none none] := by
  decide

/-- C2 (amended): in the `part_000` inline_query handler, an entry with none
of a voice reference, a document reference, a `file_id`, or a `url` is
formatted to nothing at every position, hence silently excluded from the
result list; the `src/src/index.js` handlers do not exclude such entries. -/
theorem C2_amended_part000_excludes_refless_entry
    (a : AudioEntry) (idx : Nat)
    (h : a.voice_file_id = none ∧ a.document_file_id = none
         ∧ a.file_id = none ∧ a.url = none) :
    formatInlineResult a idx = none := by
  obtain ⟨h1, h2, h3, h4⟩ := h
  unfold formatInlineResult
  simp [h1, h2, h3, h4, jsOrOpt, truthy]

/-- C2 witness: a voice-tagged entry with no media reference at index 0. -/
theorem C2_amended_part000_excludes_refless_entry_witness :
    (({ tg_type := some "voice" } : AudioEntry).voice_file_id = none
      ∧ ({ tg_type := some "voice" } : AudioEntry).document_file_id = none
      ∧ ({ tg_type := some "voice" } : AudioEntry).file_id = none
      ∧ ({ tg_type := some "voice" } : AudioEntry).url = none)
    ∧ formatInlineResult { tg_type := some "voice" } 0 = none :=
  ⟨by decide,
   C2_amended_part000_excludes_refless_entry { tg_type := some "voice" } 0 (by decide)⟩

/-! ### Claim C3: formatter priority order -/

/-- C3: formatting a catalog entry is a deterministic function of the entry
and its positional index that follows the resolution order of spec §4.2
(voice, then document, then cached audio, then URL audio); in particular the
entry with `file_id` F1, `voice_file_id` V1 and `is_voice` true is formatted
as a voice result carrying V1, not as an audio result. -/
theorem C3_formatter_follows_priority_order :
    (∀ (a : AudioEntry) (idx : Nat), formatInlineResult a idx = specFormatEntry a idx)
    ∧ formatInlineResult
        { file_id := some "F1", voice_file_id := some "V1", is_voice := some true } 0
      = some (InlineResult.voice "0" "V1" "Voice") := by
  refine ⟨fun a idx => rfl, by decide⟩

/-! ### Claim C7: result identifier derivation -/

/-- C7 counterexample: in the first `src/src/index.js` inline_query handler
the result identifier never consults `file_unique_id` — an entry with no
`id` and `file_unique_id` U at index 3 gets identifier 3, not U. -/
theorem C7_counterexample_indexJs_skips_unique_id :
    ({ file_unique_id := some "U" } : AudioEntry).id = none
    ∧ ({ file_unique_id := some "U" } : AudioEntry).file_unique_id = some "U"
    ∧ (formatInlineResultA { file_unique_id := some "U" } 3).resId = "3"
    ∧ (formatInlineResultA { file_unique_id := some "U" } 3).resId ≠ "U" := by
  decide

/-- C7 (amended): in the `part_000` handler (and the second `index.js`
program) the result identifier is the entry's `id` when truthy, otherwise
`file_unique_id` when truthy, otherwise the positional index, in that
priority; collisions are possible and are not corrected — a catalog whose
two entries resolve to the same identifier produces two results both
carrying it.  The first `index.js` handler never consults `file_unique_id`. -/
theorem C7_amended_result_id_priority :
    (∀ (a : AudioEntry) (idx : Nat),
      resultId a idx
        = if truthy a.id then a.id.getD ""
          else if truthy a.file_unique_id then a.file_unique_id.getD ""
          else toString idx)
    ∧ (inlineResults
        [{ id := some "1", url := some "u" }, { url := some "v" }]
        (some "")).map InlineResult.resId = ["1", "1"] := by
  constructor
  · intro a idx
    rw [resultId, jsOrStr_eq, jsOrStr_eq]
  · decide

/-! ### Transport selector (line 17 and `main` of each program) -/

/-- Startup environment variables read by the transport selector. -/
structure Env where
  usePollingVar : Option String := none
  webhookDomain : Option String := none
  nodeEnv : Option String := none
  deriving DecidableEq, Repr

/-- `USE_POLLING` (line 17, identical in all variants):
`process.env.USE_POLLING === 'true' || (!WEBHOOK_DOMAIN && process.env.NODE_ENV !== 'production')`. -/
def usePollingFlag (e : Env) : Bool :=
  (e.usePollingVar == some "true")
    || (!(truthy e.webhookDomain) && !(e.nodeEnv == some "production"))

/-- JS `s.replace(/\x5c\x2f$/, "")`: drop one trailing slash. -/
def stripTrailingSlash (s : String) : String :=
  match s.data.getLast? with
  | some '/' => ⟨s.data.dropLast⟩
  | _ => s

/-- `WEBHOOK_PATH` built from the secret (line 15). -/
def webhookPathOf (secret : String) : String := "/telegraf/" ++ secret

/-- The webhook URL built in `main`: optional-chained slash-stripped domain
rendered into a template literal, followed by the path. -/
def webhookUrlOf (e : Env) (secret : String) : String :=
  tmpl (e.webhookDomain.map stripTrailingSlash) ++ webhookPathOf secret

/-- Arguments of the `bot.telegram.setWebhook` registration call. -/
structure SetWebhookCall where
  url : String
  allowed_updates : Option (List String)
  deriving DecidableEq, Repr

/-- What `main` does with the transport: launch polling, or register a
webhook with the given arguments. -/
inductive TransportAction where
  | polling
  | webhook (call : SetWebhookCall)
  deriving DecidableEq, Repr

/-- The registration call of `part_000` `main` (lines 161–163): it passes
`allowed_updates` restricting the delivered update types. -/
def part000WebhookCall (e : Env) (secret : String) : SetWebhookCall :=
  { url := webhookUrlOf e secret,
    allowed_updates := some ["inline_query", "chosen_inline_result", "message"] }

/-- The registration call of both `src/src/index.js` programs (lines 109 and
338): `setWebhook(webhookUrl)` with no options, so no update-type
restriction. -/
def indexJsWebhookCall (e : Env) (secret : String) : SetWebhookCall :=
  { url := webhookUrlOf e secret, allowed_updates := none }

/-- Transport decision and action of `part_000` `main`. -/
def part000Transport (e : Env) (secret : String) : TransportAction :=
  if usePollingFlag e then .polling else .webhook (part000WebhookCall e secret)

/-- Transport decision and action of the `src/src/index.js` `main`s. -/
def indexJsTransport (e : Env) (secret : String) : TransportAction :=
  if usePollingFlag e then .polling else .webhook (indexJsWebhookCall e secret)

/-! ### Claim C5: polling-mode decision -/

/-- C5: polling mode is selected if and only if the `USE_POLLING` override
is the string true, or no webhook domain is configured (absent or empty) and
`NODE_ENV` is not the string production.  The decision is a pure function of
the startup environment, computed once into the `USE_POLLING` constant. -/
theorem C5_polling_iff_override_or_no_domain_nonprod (e : Env) :
    usePollingFlag e = true
      ↔ (e.usePollingVar = some "true"
         ∨ (truthy e.webhookDomain = false ∧ e.nodeEnv ≠ some "production")) := by
  simp [usePollingFlag, Bool.or_eq_true, Bool.and_eq_true, Bool.not_eq_true']

/-! ### Claim C6: webhook registration restricts update types -/

/-- C6 counterexample: with a webhook domain configured and `NODE_ENV`
production, both `src/src/index.js` programs select webhook mode yet
register the webhook with no `allowed_updates` restriction. -/
theorem C6_counterexample_indexJs_unrestricted :
    usePollingFlag { webhookDomain := some "https://x", nodeEnv := some "production" } = false
    ∧ indexJsTransport { webhookDomain := some "https://x", nodeEnv := some "production" } "s"
        = TransportAction.webhook { url := "https://x/telegraf/s", allowed_updates := none }
    ∧ (none : Option (List String))
        ≠ some ["inline_query", "chosen_inline_result", "message"] := by
  decide

/-- C6 (amended): whenever webhook mode is selected, the `part_000` program
registers the webhook restricting delivered update types to exactly inline
queries, chosen-inline-result notifications, and messages; the
`src/src/index.js` programs register the webhook without any update-type
restriction. -/
theorem C6_amended_part000_webhook_restricts (e : Env) (secret : String)
    (h : usePollingFlag e = false) :
    part000Transport e secret
      = TransportAction.webhook
          { url := webhookUrlOf e secret,
            allowed_updates := some ["inline_query", "chosen_inline_result", "message"] } := by
  simp [part000Transport, h, part000WebhookCall]

/-- C6 witness: a concrete production environment with a domain set. -/
theorem C6_amended_part000_webhook_restricts_witness :
    usePollingFlag { webhookDomain := some "https://x", nodeEnv := some "production" } = false
    ∧ part000Transport { webhookDomain := some "https://x", nodeEnv := some "production" } "s"
        = TransportAction.webhook
            { url := webhookUrlOf
                { webhookDomain := some "https://x", nodeEnv := some "production" } "s",
              allowed_updates := some ["inline_query", "chosen_inline_result", "message"] } :=
  ⟨by decide,
   C6_amended_part000_webhook_restricts
     { webhookDomain := some "https://x", nodeEnv := some "production" } "s" (by decide)⟩

/-! ### Command handlers: `/start` and `/id` -/

/-- The chat a message arrives in (`ctx.chat`). -/
structure ChatInfo where
  id : Int
  ctype : String
  deriving DecidableEq, Repr

/-- The sender of a message (`ctx.from`). -/
structure UserInfo where
  id : Int
  username : Option String
  deriving DecidableEq, Repr

/-- The parts of the handler context the `/start` and `/id` handlers read. -/
structure MsgCtx where
  chat : Option ChatInfo := none
  sender : Option UserInfo := none
  deriving DecidableEq, Repr

/-- Rendering of an optional JS number in a template literal. -/
def tmplInt : Option Int → String
  | none => "undefined"
  | some n => toString n

/-- Static usage reply of the `part_000` and first `index.js` `/start`
handlers (lines 50–56 of both files). -/
def usageMessageP : String :=
  "Привет! Я инлайн-бот для отправки аудио.\nНапиши в любом чате: @имя_бота запрос\nи выбери трек из списка."

/-- Static usage reply of the second `index.js` `/start` handler
(lines 196–201). -/
def usageMessageB : String :=
  "Привет! Я инлайн-бот для отправки аудио.\nНапиши в любом чате: @имя_бота запрос\nи выбери трек из списка.\nКоманда /id — показать chat_id."

/-- `formatIds` of the second `index.js` program (lines 176–183). -/
def formatIds (ctx : MsgCtx) : String :=
  String.intercalate "\n"
    ((match ctx.chat with
      | some c => ["chat_id: " ++ toString c.id ++ " (" ++ c.ctype ++ ")"]
      | none => []) ++
     (match ctx.sender with
      | some u => ["user_id: " ++ toString u.id
          ++ (if truthy u.username then " (@" ++ u.username.getD "" ++ ")" else "")]
      | none => []))

/-- `replyWithIds` of the second `index.js` program (lines 185–189),
modelled by the reply text it sends. -/
def replyWithIds (ctx : MsgCtx) : String := formatIds ctx

/-- The `/id` and `/myid` command handler of the second `index.js` program
(lines 204–205). -/
def idHandlerB (ctx : MsgCtx) : String := replyWithIds ctx

/-- The `/start` handler of the second `index.js` program (lines 191–202):
a payload lower-casing to id or getid is answered like `/id`, anything else
gets the static usage message. -/
def startHandlerB (payload : Option String) (ctx : MsgCtx) : String :=
  let p := jsOrStr payload ""
  if jsToLower p == "id" || jsToLower p == "getid" then replyWithIds ctx
  else usageMessageB

/-- The `/start` handler of `part_000` (lines 50–56): it ignores the payload
and always replies with the static usage message. -/
def startHandlerP (_payload : Option String) (_ctx : MsgCtx) : String :=
  usageMessageP

/-- The `/id` and `/myid` command handler of `part_000` (lines 58–65). -/
def idHandlerP (ctx : MsgCtx) : String :=
  "chat_id: " ++ tmplInt (ctx.chat.map (·.id)) ++ "\nuser_id: "
    ++ tmplInt (ctx.sender.map (·.id))
    ++ (if truthy (ctx.sender.bind (·.username))
        then " (@" ++ (ctx.sender.bind (·.username)).getD "" ++ ")" else "")

/-! ### Claim C8: `/start` payload dispatch -/

/-- C8 counterexample: the `part_000` `/start` handler replies with the
static usage message even for the payload id, which is not the `/id`
command's reply. -/
theorem C8_counterexample_part000_start_ignores_payload :
    startHandlerP (some "id")
        { chat := some { id := 1, ctype := "private" },
          sender := some { id := 2, username := none } }
      = usageMessageP
    ∧ idHandlerP
        { chat := some { id := 1, ctype := "private" },
          sender := some { id := 2, username := none } }
      = "chat_id: 1\nuser_id: 2"
    ∧ usageMessageP ≠ "chat_id: 1\nuser_id: 2" := by
  decide

/-- C8 (amended): in the second `src/src/index.js` program, a `/start`
payload lower-casing to id or getid is handled exactly like the `/id`
command and every other payload (including none) gets the static usage
message; in `part_000` and the first `index.js` program, `/start` always
replies with the static usage message regardless of payload. -/
theorem C8_amended_start_payload_dispatch (payload : Option String) (ctx : MsgCtx) :
    (startHandlerB payload ctx
      = if jsToLower (jsOrStr payload "") == "id"
          || jsToLower (jsOrStr payload "") == "getid"
        then idHandlerB ctx else usageMessageB)
    ∧ startHandlerP payload ctx = usageMessageP :=
  ⟨rfl, rfl⟩

end TgBot
